import Mathlib

/-!
Shallow embedding of the Trtle Game Boy graphics controller (`src/ppu.c`).

Machine bytes are modelled as `Nat` with explicit truncation (`% 256`,
`% 2 ^ 64`) exactly where the C code's fixed-width arithmetic can wrap.
Memories (video memory, object memory, the decoded tile cache and the
display buffer) are modelled as total functions updated pointwise, which
matches the C arrays at every in-range index.
-/

/-- Modelled from the spec: the numeric values of the four controller modes
live in `ppu.h`, which is not part of the visible sources.  The spec fixes
them to the 2 low bits of the status register and gives the hardware order
`OAM_SEARCH → DATA_TRANSFER → HBLANK → VBLANK`; the standard encoding is
HBLANK = 0, VBLANK = 1, OAM_SEARCH = 2, DATA_TRANSFER = 3.  Every theorem
below depends only on these four values being distinct and two bits wide. -/
def GRAPHICS_MODE_HBLANK : Nat := 0

/-- Modelled from the spec: see `GRAPHICS_MODE_HBLANK`. -/
def GRAPHICS_MODE_VBLANK : Nat := 1

/-- Modelled from the spec: see `GRAPHICS_MODE_HBLANK`. -/
def GRAPHICS_MODE_OAM_SEARCH : Nat := 2

/-- Modelled from the spec: see `GRAPHICS_MODE_HBLANK`. -/
def GRAPHICS_MODE_DATA_TRANSFER : Nat := 3

/-- Modelled from the spec: the shared interrupt-flags register bit for
"vblank entered" comes from `interrupt_controller.h`, not in the visible
sources.  The spec only requires two distinct bits; the hardware flags
register uses bit 0 for vblank. -/
def VBLANK_INTERRUPT_BIT : Nat := 1

/-- Modelled from the spec: the "LCD-status condition met" bit of the shared
interrupt-flags register (bit 1 of the hardware flags register). -/
def LCD_STAT_INTERRUPT_BIT : Nat := 2

-- Constants of `ppu.c` (LCDCBit, StatBit, SpriteAttributeBit enums and #defines).
def LCDC_LCD_ENABLE_BIT : Nat := 0x80
def LCDC_WINDOW_MAP_BIT : Nat := 0x40
def LCDC_WINDOW_ENABLE_BIT : Nat := 0x20
def LCDC_BG_WINDOW_MODE_BIT : Nat := 0x10
def LCDC_BG_MAP_BIT : Nat := 0x08
def LCDC_SPRITE_SIZE_BIT : Nat := 0x04
def LCDC_SPRITE_ENABLE_BIT : Nat := 0x02
def LCDC_BG_ENABLE_BIT : Nat := 0x01

def STAT_UNUSED_BIT : Nat := 0x80
def STAT_WRITE_BITS : Nat := 0x7C
def STAT_LY_LYC_COMPARSION_ENABLE : Nat := 0x40
def STAT_OAM_SEARCH_CHECK_ENABLE : Nat := 0x20
def STAT_VBLANK_CHECK_ENABLE : Nat := 0x10
def STAT_HBLANK_CHECK_ENABLE : Nat := 0x08
def STAT_LY_LYC_COMPARISON_SIGNAL : Nat := 0x04
def STAT_MODE_BITS : Nat := 0x03

def SPRITE_TO_BG_PRIORITY_BIT : Nat := 0x80
def SPRITE_FLIP_Y_BIT : Nat := 0x40
def SPRITE_FLIP_X_BIT : Nat := 0x20

def PPU_HBLANK_LENGTH : Nat := 50
def PPU_VBLANK_LENGTH : Nat := 114
def PPU_OAM_SEARCH_LENGTH : Nat := 21
def PPU_DATA_TRANSFER_LENGTH : Nat := 43

def PPU_BYTES_PER_TILE : Nat := 16
def PPU_BYTES_PER_ROW : Nat := 2
def PPU_TS_WIDTH_IN_TILES : Nat := 16
def PPU_BG_TILE_COUNT : Nat := 1024
def PPU_BG_WIDTH_IN_TILES : Nat := 32
def PPU_BACKGROUND1_START : Nat := 0x1800
def PPU_BACKGROUND2_START : Nat := 0x1C00
def PPU_LCD_COLOR_CODE : Nat := 4

def GAMEBOY_DISPLAY_WIDTH : Nat := 160
def GAMEBOY_DISPLAY_HEIGHT : Nat := 144

/-- Modelled from the spec: per-tile geometry constants from `ppu.h`
(not in the visible sources); a tile is an 8×8 grid of color indices. -/
def PPU_PIXELS_PER_TILE_ROW : Nat := 8

/-- Modelled from the spec: see `PPU_PIXELS_PER_TILE_ROW`. -/
def PPU_ROWS_PER_TILE : Nat := 8

/-- Modelled from the spec: the display is 160×144 (`ppu.h`; the visible
`gameboy.h` fixes `GAMEBOY_DISPLAY_WIDTH/HEIGHT` to the same values). -/
def PPU_DISPLAY_WIDTH : Nat := 160

/-- Modelled from the spec: see `PPU_DISPLAY_WIDTH`. -/
def PPU_DISPLAY_HEIGHT : Nat := 144

/-- Modelled from the spec: the debug background view is the full 256×256
background layer (`ppu.h`). -/
def PPU_BG_WIDTH_IN_PIXELS : Nat := 256

/-- Modelled from the spec: see `PPU_BG_WIDTH_IN_PIXELS`. -/
def PPU_BG_HEIGHT_IN_PIXELS : Nat := 256

/-- Modelled from the spec: the tile-set view covers all 384 cached tiles
(`ppu.h`), laid out 16 tiles per row. -/
def PPU_TS_TILE_COUNT : Nat := 384

/-- Modelled from the spec: see `PPU_TS_TILE_COUNT` (16 tiles × 8 pixels). -/
def PPU_TS_WIDTH_IN_PIXELS : Nat := 128

/-- Modelled from the spec: 384 / 16 tile rows × 8 pixel rows. -/
def PPU_TS_HEIGHT_IN_PIXELS : Nat := 192

/-- Modulus of the C `size_t` arithmetic used for the dot counter. -/
def SIZE_T_MOD : Nat := 2 ^ 64

/-- Pointwise update of a byte-array-as-function (C `a[i] = v`). -/
def upd (f : Nat → Nat) (i v : Nat) : Nat → Nat :=
  fun j => if j = i then v else f j

/-- Pointwise update of the three-dimensional tile cache. -/
def upd3 (f : Nat → Nat → Nat → Nat) (a b c v : Nat) : Nat → Nat → Nat → Nat :=
  fun x y z => if x = a ∧ y = b ∧ z = c then v else f x y z

/-- Modelled from the spec: the `PPU` struct layout lives in `ppu.h`; the
fields below are exactly those `ppu.c` reads and writes (byte registers, the
internal window-line counter, the `size_t` dot counter, and the four
memories). -/
structure PPU where
  lcdc : Nat
  stat : Nat
  scy : Nat
  scx : Nat
  ly : Nat
  lyc : Nat
  bgp : Nat
  obp0 : Nat
  obp1 : Nat
  wy : Nat
  wx : Nat
  window_internal_line : Nat
  count : Nat
  vram : Nat → Nat
  oam : Nat → Nat
  tile_buffer : Nat → Nat → Nat → Nat
  display_buffer : Nat → Nat

/-- The slice of the `GameBoy` struct that `ppu.c` touches: the PPU itself
and the interrupt controller's shared flags register. -/
structure GameBoy where
  ppu : PPU
  iflags : Nat

/-- `ppu_initialize` (ppu.c:56-72); the `skip_bootrom` parameter is unused
by the C body, and the memories are left as they were. -/
def ppu_initialize (p : PPU) (_skip_bootrom : Bool) : PPU :=
  { p with
    lcdc := 0x91, stat := 0x00, scy := 0x00, scx := 0x00, ly := 0x00,
    lyc := 0x00, bgp := 0xFC, obp0 := 0xFF, obp1 := 0xFF, wy := 0x00,
    wx := 0x00, window_internal_line := 0, count := 80 }

/-- `scx_cycle_offsets` (ppu.c:74-76), indexed by `scx % 8`. -/
def scx_cycle_offsets (i : Nat) : Nat :=
  [0, 1, 1, 1, 1, 2, 2, 2].getD i 0

/-- `ppu_hblank_enter` (ppu.c:78-82). -/
def ppu_hblank_enter (gb : GameBoy) : GameBoy :=
  let p := gb.ppu
  let p := { p with
    stat := p.stat &&& 0xFC ||| GRAPHICS_MODE_HBLANK,
    count := (p.count + (PPU_HBLANK_LENGTH - scx_cycle_offsets (p.scx % 8))) % SIZE_T_MOD }
  { gb with ppu := p }

/-- `ppu_vblank_enter` (ppu.c:84-95): set the mode bits, schedule one vblank
line, reset the window-line counter, raise the vblank interrupt, and raise
the LCD-status interrupt when the vblank- or OAM-search-enable bit is set. -/
def ppu_vblank_enter (gb : GameBoy) : GameBoy :=
  let p := gb.ppu
  let p := { p with
    stat := p.stat &&& 0xFC ||| GRAPHICS_MODE_VBLANK,
    count := (p.count + PPU_VBLANK_LENGTH) % SIZE_T_MOD,
    window_internal_line := 0 }
  let fl := gb.iflags ||| VBLANK_INTERRUPT_BIT
  let fl := if p.stat &&& STAT_VBLANK_CHECK_ENABLE ≠ 0 ∨ p.stat &&& STAT_OAM_SEARCH_CHECK_ENABLE ≠ 0
            then fl ||| LCD_STAT_INTERRUPT_BIT else fl
  { ppu := p, iflags := fl }

/-- `ppu_oam_search_enter` (ppu.c:97-105). -/
def ppu_oam_search_enter (gb : GameBoy) : GameBoy :=
  let p := gb.ppu
  let p := { p with
    stat := p.stat &&& 0xFC ||| GRAPHICS_MODE_OAM_SEARCH,
    count := (p.count + PPU_OAM_SEARCH_LENGTH) % SIZE_T_MOD }
  let fl := if p.stat &&& STAT_OAM_SEARCH_CHECK_ENABLE ≠ 0
            then gb.iflags ||| LCD_STAT_INTERRUPT_BIT else gb.iflags
  { ppu := p, iflags := fl }

/-- `ppu_data_transfer_enter` (ppu.c:107-111). -/
def ppu_data_transfer_enter (gb : GameBoy) : GameBoy :=
  let p := gb.ppu
  let p := { p with
    stat := p.stat &&& 0xFC ||| GRAPHICS_MODE_DATA_TRANSFER,
    count := (p.count + (PPU_DATA_TRANSFER_LENGTH + scx_cycle_offsets (p.scx % 8))) % SIZE_T_MOD }
  { gb with ppu := p }

/-- `ppu_compare_ly_lyc` (ppu.c:113-123). -/
def ppu_compare_ly_lyc (gb : GameBoy) : GameBoy :=
  let p := gb.ppu
  if p.ly ≠ p.lyc then
    { gb with ppu := { p with stat := p.stat &&& 0xFB } }
  else
    let p := { p with stat := p.stat ||| STAT_LY_LYC_COMPARISON_SIGNAL }
    let fl := if p.stat &&& STAT_LY_LYC_COMPARSION_ENABLE ≠ 0
              then gb.iflags ||| LCD_STAT_INTERRUPT_BIT else gb.iflags
    { ppu := p, iflags := fl }

/-- Palette mapping of `ppu.c` (`offset = color*2; bits = 3 << offset;
color = (pal & bits) >> offset`), with the intermediate `uint8_t`
truncations made explicit. -/
def palette_map (pal color : Nat) : Nat :=
  let offset := (color * 2) % 256
  let bits := (3 <<< offset) % 256
  (pal &&& bits) >>> offset

/-- `ppu_read_lcdc` (ppu.c:273-275). -/
def ppu_read_lcdc (gb : GameBoy) : Nat := gb.ppu.lcdc

/-- `ppu_write_lcdc` (ppu.c:277-284): writing a value with the LCD-enable
bit clear resets `ly`, primes the counter with the quirk value 115 and
clears the two mode bits, then the value is stored. -/
def ppu_write_lcdc (gb : GameBoy) (value : Nat) : GameBoy :=
  let p := gb.ppu
  let p := if value &&& LCDC_LCD_ENABLE_BIT = 0 then
      { p with ly := 0, count := 115, stat := p.stat &&& 0xFC }
    else p
  { gb with ppu := { p with lcdc := value } }

/-- `ppu_read_stat` (ppu.c:286-288). -/
def ppu_read_stat (gb : GameBoy) : Nat := gb.ppu.stat ||| STAT_UNUSED_BIT

/-- `ppu_write_stat` (ppu.c:290-293): `stat &= ~STAT_WRITE_BITS;
stat |= value & STAT_WRITE_BITS` (`~0x7C` on a byte is `0x83`). -/
def ppu_write_stat (gb : GameBoy) (value : Nat) : GameBoy :=
  { gb with ppu := { gb.ppu with
      stat := gb.ppu.stat &&& 0x83 ||| (value &&& STAT_WRITE_BITS) } }

/-- `ppu_read_oam` (ppu.c:295-297). -/
def ppu_read_oam (gb : GameBoy) (address : Nat) : Nat := gb.ppu.oam address

/-- `ppu_write_oam` (ppu.c:299-303): silently dropped during OAM search and
data transfer. -/
def ppu_write_oam (gb : GameBoy) (address value : Nat) : GameBoy :=
  if gb.ppu.stat &&& STAT_MODE_BITS = GRAPHICS_MODE_DATA_TRANSFER then gb
  else if gb.ppu.stat &&& STAT_MODE_BITS = GRAPHICS_MODE_OAM_SEARCH then gb
  else { gb with ppu := { gb.ppu with oam := upd gb.ppu.oam address value } }

/-- `ppu_read_vram` (ppu.c:305-307). -/
def ppu_read_vram (gb : GameBoy) (address : Nat) : Nat := gb.ppu.vram address

/-- The tile-row recompute loop of `ppu_write_vram` (ppu.c:318-328): for
each of the 8 pixel positions, most-significant bit first, compute the
2-bit color code of bit-planes `byte1` (low) and `byte2` (high). -/
def tile_row_recompute (tb : Nat → Nat → Nat → Nat) (tile row byte1 byte2 : Nat) :
    Nat → Nat → Nat → Nat :=
  (List.range PPU_PIXELS_PER_TILE_ROW).foldl (fun tb pixel =>
    let mask := 1 <<< (7 - pixel)
    let color_code :=
      if byte1 &&& mask ≠ 0 then (if byte2 &&& mask ≠ 0 then 3 else 1)
      else (if byte2 &&& mask ≠ 0 then 2 else 0)
    upd3 tb tile row pixel color_code) tb

/-- `ppu_write_vram` (ppu.c:309-330): store the byte and, for addresses in
the tile-data region, recompute the 8 cache entries of the affected tile
row from the even/odd byte pair containing the address. -/
def ppu_write_vram (gb : GameBoy) (address value : Nat) : GameBoy :=
  let p := gb.ppu
  let vram' := upd p.vram address value
  if address < 0x1800 then
    let tb' := tile_row_recompute p.tile_buffer
      (address / PPU_BYTES_PER_TILE)
      ((address % PPU_BYTES_PER_TILE) / PPU_BYTES_PER_ROW)
      (vram' (address &&& 0xFFFE))
      (vram' ((address &&& 0xFFFE) + 1))
    { gb with ppu := { p with vram := vram', tile_buffer := tb' } }
  else
    { gb with ppu := { p with vram := vram' } }

/-- `ppu_get_mode` (ppu.c:332-334). -/
def ppu_get_mode (gb : GameBoy) : Nat := gb.ppu.stat &&& STAT_MODE_BITS

/-- `get_pixel_color` (ppu.c:336-346): the fixed 5-entry shade lookup
(plus the C fall-through value for impossible codes). -/
def get_pixel_color (color_code : Nat) : Nat :=
  if color_code = 0 then 0xF5F5F5F5
  else if color_code = 1 then 0xAAAAAAAA
  else if color_code = 2 then 0x55555555
  else if color_code = 3 then 0x01010101
  else if color_code = 4 then 0x00000000
  else 0x00FF00FF

/-- One entry of the renderer's local `sprites[10][4]` array: the four raw
object-memory bytes of a selected sprite. -/
structure SpriteRec where
  yb : Nat
  xb : Nat
  tb : Nat
  ab : Nat
deriving DecidableEq, Repr, Inhabited

/-- Scanline sprite selection (ppu.c:170-176): scan the 40 object entries in
order, keep those whose vertical span covers the current line, and stop
after the tenth. -/
def select_sprites (p : PPU) (sprite_size : Nat) : List SpriteRec :=
  (((List.range 40).filter (fun i =>
      let sprite_y : Int := (p.oam (i * 4) : Int) - 16
      decide (sprite_y ≤ (p.ly : Int) ∧ (p.ly : Int) - sprite_y < (sprite_size : Int)))).take 10).map
    (fun i => ⟨p.oam (i * 4), p.oam (i * 4 + 1), p.oam (i * 4 + 2), p.oam (i * 4 + 3)⟩)

/-- One outer step of the renderer's selection sort (ppu.c:179-192): find
the leftmost minimum-X entry in `a[i..]` and swap it into slot `i`. -/
def sprite_sort_step (a : Array SpriteRec) (i : Nat) : Array SpriteRec :=
  let m := (List.range' (i + 1) (a.size - (i + 1))).foldl
    (fun m k => if (a.getD k default).xb < (a.getD m default).xb then k else m) i
  if m ≠ i then
    let ai := a.getD i default
    let am := a.getD m default
    (a.setD i am).setD m ai
  else a

/-- The renderer's selection sort over the selected sprites
(ppu.c:178-193).  It orders by ascending X byte but, being a selection
sort with swaps, does not preserve the original order of X ties. -/
def sprite_sort (a : Array SpriteRec) : Array SpriteRec :=
  if a.size > 1 then (List.range (a.size - 1)).foldl sprite_sort_step a
  else a

/-- Painting one sprite into the scanline (the body of the loop at
ppu.c:195-232), threading the display buffer. -/
def paint_sprite (p : PPU) (sprite_size : Nat) (db : Nat → Nat) (s : SpriteRec) : Nat → Nat :=
  let sprite_y : Int := (s.yb : Int) - 16
  let sprite_x : Int := (s.xb : Int) - 8
  let flip_x := s.ab &&& SPRITE_FLIP_X_BIT ≠ 0
  let priority := s.ab &&& SPRITE_TO_BG_PRIORITY_BIT ≠ 0
  let tile_id := if sprite_size = 16 then s.tb &&& 0xFE else s.tb
  let tr : Int := if s.ab &&& SPRITE_FLIP_Y_BIT ≠ 0
                  then (sprite_size : Int) - 1 - ((p.ly : Int) - sprite_y)
                  else (p.ly : Int) - sprite_y
  let tile_row := (tr.emod 256).toNat
  let tile_id := if tile_row ≥ 8 then tile_id + 1 else tile_id
  let tile_row := if tile_row ≥ 8 then tile_row - 8 else tile_row
  (List.range 8).foldl (fun db (tile_column : Nat) =>
    if sprite_x + (tile_column : Int) < 0 ∨
       sprite_x + (tile_column : Int) > (GAMEBOY_DISPLAY_WIDTH : Int) - 1 then db
    else
      let color := p.tile_buffer tile_id (tile_row &&& 0x7)
        (if flip_x then 7 - tile_column else tile_column)
      let idx := (sprite_x + (tile_column : Int)).toNat + p.ly * GAMEBOY_DISPLAY_WIDTH
      if color ≠ 0 ∧ (¬ priority ∨ db idx = 0) then
        let pal := if (s.ab >>> 4) &&& 1 = 1 then p.obp1 else p.obp0
        upd db idx (palette_map pal color)
      else db) db

/-- The background pass of `ppu_draw_line` (ppu.c:126-142): the value
written at display column `i` of the current scanline. -/
def bg_pixel (p : PPU) (i : Nat) : Nat :=
  let background_row := (p.scy + p.ly) % 256
  let background_column := (p.scx + i) % 256
  let map_offset := if p.lcdc &&& LCDC_BG_MAP_BIT ≠ 0
                    then PPU_BACKGROUND2_START else PPU_BACKGROUND1_START
  let tile_id := p.vram (map_offset + background_column / 8 +
    (background_row / 8) * PPU_BG_WIDTH_IN_TILES)
  let tile_id := if p.lcdc &&& LCDC_BG_WINDOW_MODE_BIT ≠ 0 then tile_id
                 else tile_id + 256 * (if tile_id < 128 then 1 else 0)
  let color := p.tile_buffer tile_id (background_row % 8) (background_column % 8)
  palette_map p.bgp color

/-- The window pass of `ppu_draw_line` (ppu.c:144-162): the value written at
display column `i` (for `i ≥ wx`) of the current scanline. -/
def window_pixel (p : PPU) (wx i : Nat) : Nat :=
  let window_column := (p.scx + i) % 256
  let window_column := if window_column ≥ wx then ((i : Int) - (wx : Int)).emod 256 |>.toNat
                       else window_column
  let map_offset := if p.lcdc &&& LCDC_WINDOW_MAP_BIT ≠ 0
                    then PPU_BACKGROUND2_START else PPU_BACKGROUND1_START
  let tile_id := p.vram (map_offset + window_column / 8 +
    (p.window_internal_line / 8) * PPU_BG_WIDTH_IN_TILES)
  let tile_id := if p.lcdc &&& LCDC_BG_WINDOW_MODE_BIT ≠ 0 then tile_id
                 else tile_id + 256 * (if tile_id < 128 then 1 else 0)
  let color := p.tile_buffer tile_id (p.window_internal_line % 8) (window_column % 8)
  palette_map p.bgp color

/-- `ppu_draw_line` (ppu.c:125-234): background, then window, then the
sprite pass (selection, selection sort by X, painting in reverse sorted
order). -/
def ppu_draw_line (gb : GameBoy) : GameBoy :=
  let p := gb.ppu
  -- background pass
  let p :=
    if p.lcdc &&& LCDC_BG_ENABLE_BIT ≠ 0 then
      let db' := (List.range GAMEBOY_DISPLAY_WIDTH).foldl
        (fun db i => upd db (i + p.ly * GAMEBOY_DISPLAY_WIDTH) (bg_pixel p i))
        p.display_buffer
      { p with display_buffer := db' }
    else p
  -- window pass
  let p :=
    if p.lcdc &&& LCDC_WINDOW_ENABLE_BIT ≠ 0 ∧ p.wy ≤ p.ly ∧
       (p.wx : Int) - 7 ≤ 0xA6 then
      let wx := (((p.wx : Int) - 7).emod 256).toNat
      let db' := (List.range' wx (GAMEBOY_DISPLAY_WIDTH - wx)).foldl
        (fun db i => upd db (i + p.ly * GAMEBOY_DISPLAY_WIDTH) (window_pixel p wx i))
        p.display_buffer
      { p with display_buffer := db',
               window_internal_line := p.window_internal_line + 1 }
    else p
  -- sprite pass
  let p :=
    if p.lcdc &&& LCDC_SPRITE_ENABLE_BIT ≠ 0 then
      let sprite_size := if p.lcdc &&& LCDC_SPRITE_SIZE_BIT ≠ 0 then 16 else 8
      let sorted := sprite_sort (select_sprites p sprite_size).toArray
      let db' := sorted.toList.reverse.foldl (paint_sprite p sprite_size) p.display_buffer
      { p with display_buffer := db' }
    else p
  { gb with ppu := p }

/-- The `GRAPHICS_MODE_HBLANK` case of `ppu_cycle`'s switch
(ppu.c:247-251). -/
def ppu_cycle_hblank_case (gb : GameBoy) : GameBoy :=
  let ly' := (gb.ppu.ly + 1) % 256
  let gb := { gb with ppu := { gb.ppu with ly := ly' } }
  let gb := if ly' < 144 then ppu_oam_search_enter gb else ppu_vblank_enter gb
  ppu_compare_ly_lyc gb

/-- The `GRAPHICS_MODE_VBLANK` case of `ppu_cycle`'s switch
(ppu.c:253-260). -/
def ppu_cycle_vblank_case (gb : GameBoy) : GameBoy :=
  let ly' := (gb.ppu.ly + 1) % 256
  let gb := { gb with ppu := { gb.ppu with ly := ly' } }
  let gb := if ly' > 153 then
      ppu_oam_search_enter { gb with ppu := { gb.ppu with ly := 0 } }
    else { gb with ppu := { gb.ppu with
      count := (gb.ppu.count + PPU_VBLANK_LENGTH) % SIZE_T_MOD } }
  ppu_compare_ly_lyc gb

/-- The mode dispatch of `ppu_cycle` (ppu.c:246-270), reached when the dot
counter hits 0. -/
def ppu_cycle_dispatch (gb : GameBoy) : GameBoy :=
  let mode := gb.ppu.stat &&& STAT_MODE_BITS
  if mode = GRAPHICS_MODE_HBLANK then ppu_cycle_hblank_case gb
  else if mode = GRAPHICS_MODE_VBLANK then ppu_cycle_vblank_case gb
  else if mode = GRAPHICS_MODE_OAM_SEARCH then ppu_data_transfer_enter gb
  else if mode = GRAPHICS_MODE_DATA_TRANSFER then ppu_hblank_enter (ppu_draw_line gb)
  else gb

/-- `ppu_cycle` (ppu.c:236-271): the per-dot advance operation.  The
`size_t` decrement of the dot counter wraps modulo `2 ^ 64`. -/
def ppu_cycle (gb : GameBoy) : GameBoy :=
  if gb.ppu.lcdc &&& LCDC_LCD_ENABLE_BIT = 0 then gb
  else
    let count := (gb.ppu.count + (SIZE_T_MOD - 1)) % SIZE_T_MOD
    let gb := { gb with ppu := { gb.ppu with count := count } }
    let gb :=
      if count = 1 ∧ gb.ppu.stat &&& STAT_MODE_BITS = GRAPHICS_MODE_DATA_TRANSFER ∧
         gb.ppu.stat &&& STAT_HBLANK_CHECK_ENABLE ≠ 0 then
        { gb with iflags := gb.iflags ||| LCD_STAT_INTERRUPT_BIT }
      else gb
    if count ≠ 0 then gb else ppu_cycle_dispatch gb

/-- A convenient concrete power-on state: `ppu_initialize` applied to
zeroed memories and registers. -/
def ppu0 : PPU :=
  ppu_initialize
    { lcdc := 0, stat := 0, scy := 0, scx := 0, ly := 0, lyc := 0, bgp := 0,
      obp0 := 0, obp1 := 0, wy := 0, wx := 0, window_internal_line := 0,
      count := 0, vram := fun _ => 0, oam := fun _ => 0,
      tile_buffer := fun _ _ _ => 0, display_buffer := fun _ => 0 } true

/-- Concrete machine built on `ppu0` with no pending interrupts. -/
def gb0 : GameBoy := { ppu := ppu0, iflags := 0 }

example : gb0.ppu.lcdc = 0x91 ∧ gb0.ppu.count = 80 := by decide
example : (ppu_write_stat gb0 4).ppu.stat = 4 := by decide
example : (ppu_write_lcdc gb0 0).ppu.count = 115 := by decide

/-- The common shape of the three export loops of `ppu.c`: walk the
traversal order `l`, write `(idx t, val t)` for each visited element, and
return early — after the write — as soon as the written element's index
equals the requested maximum `length`; when the walk completes, return the
view's natural full size.  The first component of the result is the list of
writes performed, in order. -/
def export_loop {ι : Type} (idx val : ι → Nat) (length full : Nat) :
    List ι → List (Nat × Nat) → List (Nat × Nat) × Nat
  | [], acc => (acc, full)
  | t :: rest, acc =>
      let acc' := acc ++ [(idx t, val t)]
      if idx t = length then (acc', length)
      else export_loop idx val length full rest acc'

/-- The value `ppu_get_display_data` stores at element `x`
(ppu.c:367-369). -/
def display_val (gb : GameBoy) (x : Nat) : Nat :=
  if gb.ppu.lcdc &&& LCDC_LCD_ENABLE_BIT ≠ 0 then
    get_pixel_color (gb.ppu.display_buffer x)
  else get_pixel_color PPU_LCD_COLOR_CODE

/-- The element traversal order of `ppu_get_display_data`'s single loop:
the indices `0, 1, ..., 160*144 - 1` in order (built row by row so the list
stays kernel-reducible). -/
def display_traversal : List Nat :=
  (List.range PPU_DISPLAY_HEIGHT).flatMap fun y =>
    (List.range PPU_DISPLAY_WIDTH).map fun x => y * PPU_DISPLAY_WIDTH + x

/-- `ppu_get_display_data` (ppu.c:366-374) as its trace of buffer writes
plus its return value. -/
def ppu_get_display_data (gb : GameBoy) (length : Nat) : List (Nat × Nat) × Nat :=
  export_loop id (display_val gb) length (PPU_DISPLAY_WIDTH * PPU_DISPLAY_HEIGHT)
    display_traversal []

/-- The `(tile, row, pixel)` traversal order of `ppu_get_background_data`
(ppu.c:349-352). -/
def bg_traversal : List (Nat × Nat × Nat) :=
  (List.range PPU_BG_TILE_COUNT).flatMap fun tile =>
    (List.range PPU_ROWS_PER_TILE).flatMap fun row =>
      (List.range PPU_PIXELS_PER_TILE_ROW).map fun pixel => (tile, row, pixel)

/-- The destination element index `x + y * 256` used by
`ppu_get_background_data` (ppu.c:351-358). -/
def bg_idx (t : Nat × Nat × Nat) : Nat :=
  (t.1 % PPU_BG_WIDTH_IN_TILES) * PPU_PIXELS_PER_TILE_ROW + t.2.2 +
    (t.1 / PPU_BG_WIDTH_IN_TILES * PPU_PIXELS_PER_TILE_ROW + t.2.1) * PPU_BG_WIDTH_IN_PIXELS

/-- The value `ppu_get_background_data` stores for traversal element
`(tile, row, pixel)` (ppu.c:355-358): the raw cached color index of the
tile named by background map 1, after signed/unsigned translation. -/
def bg_export_val (gb : GameBoy) (t : Nat × Nat × Nat) : Nat :=
  let tile_id := gb.ppu.vram (PPU_BACKGROUND1_START + t.1)
  let tile_id := if gb.ppu.lcdc &&& LCDC_BG_WINDOW_MODE_BIT ≠ 0 then tile_id
                 else tile_id + 256 * (if tile_id < 128 then 1 else 0)
  gb.ppu.tile_buffer tile_id t.2.1 t.2.2

/-- `ppu_get_background_data` (ppu.c:348-364) as its trace of buffer writes
plus its return value. -/
def ppu_get_background_data (gb : GameBoy) (length : Nat) : List (Nat × Nat) × Nat :=
  export_loop bg_idx (bg_export_val gb) length
    (PPU_BG_WIDTH_IN_PIXELS * PPU_BG_HEIGHT_IN_PIXELS) bg_traversal []

/-- The `(tile, row, pixel)` traversal order of `ppu_get_tileset_data`
(ppu.c:377-380). -/
def ts_traversal : List (Nat × Nat × Nat) :=
  (List.range PPU_TS_TILE_COUNT).flatMap fun tile =>
    (List.range PPU_ROWS_PER_TILE).flatMap fun row =>
      (List.range PPU_PIXELS_PER_TILE_ROW).map fun pixel => (tile, row, pixel)

/-- The destination element index `x + y * 128` used by
`ppu_get_tileset_data` (ppu.c:379-383). -/
def ts_idx (t : Nat × Nat × Nat) : Nat :=
  (t.1 % PPU_TS_WIDTH_IN_TILES) * PPU_PIXELS_PER_TILE_ROW + t.2.2 +
    (t.1 / PPU_TS_WIDTH_IN_TILES * PPU_PIXELS_PER_TILE_ROW + t.2.1) * PPU_TS_WIDTH_IN_PIXELS

/-- The value `ppu_get_tileset_data` stores for traversal element
`(tile, row, pixel)` (ppu.c:383): the raw cached color index. -/
def ts_export_val (gb : GameBoy) (t : Nat × Nat × Nat) : Nat :=
  gb.ppu.tile_buffer t.1 t.2.1 t.2.2

/-- `ppu_get_tileset_data` (ppu.c:376-389) as its trace of buffer writes
plus its return value. -/
def ppu_get_tileset_data (gb : GameBoy) (length : Nat) : List (Nat × Nat) × Nat :=
  export_loop ts_idx (ts_export_val gb) length
    (PPU_TS_WIDTH_IN_PIXELS * PPU_TS_HEIGHT_IN_PIXELS) ts_traversal []

/-- Concrete machine exercising the sprite pass on scanline 0: background
and window disabled, sprites enabled (8-pixel mode), identity object
palette 0.  Object memory holds sprite 0 at Y=16, X=18, tile 1; sprite 1 at
Y=16, X=18 (an exact X tie, later memory index), tile 2; sprite 2 at Y=16,
X=10, tile 3; all attributes 0 and every other sprite off-scanline.  Tiles
1, 2, 3 are uniformly colors 1, 2, 3. -/
def gbC4 : GameBoy :=
  { ppu := { ppu0 with
      lcdc := 0x02, ly := 0, obp0 := 0xE4,
      oam := fun i =>
        if i = 0 then 16 else if i = 1 then 18 else if i = 2 then 1 else
        if i = 4 then 16 else if i = 5 then 18 else if i = 6 then 2 else
        if i = 8 then 16 else if i = 9 then 10 else if i = 10 then 3 else 0,
      tile_buffer := fun t _ _ =>
        if t = 1 then 1 else if t = 2 then 2 else if t = 3 then 3 else 0 },
    iflags := 0 }

/-- Power-on machine after writing the byte pair `0xFF, 0xFF` into tile 0's
first row, so cache entry (0,0,0) holds raw color index 3. -/
def gbC9 : GameBoy := ppu_write_vram (ppu_write_vram gb0 0 0xFF) 1 0xFF

/-- Power-on machine with the LCD disabled through the control register. -/
def gbOff : GameBoy := ppu_write_lcdc gb0 0

/-- Concrete machine poised one dot before the hblank→vblank transition:
mode HBLANK, counter 1, scanline 143, vblank-check enable set, compare
value far away, no pending interrupt flags. -/
def gbC2w : GameBoy :=
  { ppu := { ppu0 with stat := 0x10, ly := 143, lyc := 200, count := 1 }, iflags := 0 }

/-- Concrete machine in DATA_TRANSFER with the hblank-interrupt-enable bit
set and the dot counter at 2 (so the next advance brings it to 1). -/
def gbC1w : GameBoy :=
  { ppu := { ppu0 with stat := 0x0B, count := 2 }, iflags := 0 }

/-- Concrete machine in HBLANK mode (power-on status byte) used to witness
object-memory writes going through. -/
def gbC7w : GameBoy := gb0

/-- Or-ing a mask in makes the mask's bits read set. -/
theorem lor_and_self (x m : Nat) : (x ||| m) &&& m = m := by
  apply Nat.eq_of_testBit_eq
  intro i
  rw [Nat.testBit_land, Nat.testBit_lor]
  cases m.testBit i <;> simp

/-- `&&&` distributes over `|||` on the left operand. -/
theorem land_lor_right (x y z : Nat) : (x ||| y) &&& z = x &&& z ||| y &&& z := by
  apply Nat.eq_of_testBit_eq
  intro i
  rw [Nat.testBit_lor, Nat.testBit_land, Nat.testBit_lor, Nat.testBit_land,
    Nat.testBit_land]
  cases x.testBit i <;> cases y.testBit i <;> cases z.testBit i <;> rfl

/-- Masking with a single bit extracts that bit. -/
theorem land_pow2 (x k : Nat) : x &&& 2 ^ k = if x.testBit k then 2 ^ k else 0 := by
  apply Nat.eq_of_testBit_eq
  intro i
  rw [Nat.testBit_land]
  rcases eq_or_ne i k with rfl | h
  · by_cases hx : x.testBit i <;> simp [hx, Nat.testBit_two_pow]
  · by_cases hx : x.testBit k <;>
      simp [hx, Nat.testBit_two_pow, Ne.symm h, Nat.zero_testBit]

/-- A single-bit mask test is the corresponding `testBit`. -/
theorem land_pow2_ne (x k : Nat) : x &&& 2 ^ k ≠ 0 ↔ x.testBit k = true := by
  rw [land_pow2]
  by_cases hx : x.testBit k
  · simp [hx, (Nat.pos_pow_of_pos k (show 0 < 2 by norm_num)).ne.symm]
  · simp [hx]

/-- Setting the two mode bits (`stat & ~STAT_MODE_BITS | mode`) leaves each
of the five upper writable/flag bits of the status byte unchanged. -/
theorem land_two_pow_mode_set (s m k : Nat) (hm : m < 4) (h2 : 2 ≤ k) (h7 : k ≤ 7) :
    (s &&& 0xFC ||| m) &&& 2 ^ k = s &&& 2 ^ k := by
  have hm0 : m &&& 2 ^ k = 0 := by
    rw [land_pow2, if_neg]
    rw [Nat.testBit_lt_two_pow (lt_of_lt_of_le hm ?_)]
    · simp
    · calc (4:Nat) = 2 ^ 2 := by norm_num
        _ ≤ 2 ^ k := Nat.pow_le_pow_right (by norm_num) h2
  rw [land_lor_right, hm0, Nat.or_zero, Nat.land_assoc]
  have : (0xFC &&& 2 ^ k : Nat) = 2 ^ k := by
    interval_cases k <;> decide
  rw [this]

set_option maxRecDepth 8000 in
/-- C1: while the LCD is enabled, in DATA_TRANSFER mode with the
hblank-interrupt-enable bit set, a per-dot advance whose decrement brings
the dot counter to exactly 1 sets the LCD-status interrupt bit, while the
mode bits still read DATA_TRANSFER after the call (the transition to
HBLANK happens only on the next call). -/
theorem C1_early_hblank_stat_interrupt (gb : GameBoy)
    (hen : gb.ppu.lcdc &&& LCDC_LCD_ENABLE_BIT ≠ 0)
    (hmode : ppu_get_mode gb = GRAPHICS_MODE_DATA_TRANSFER)
    (hirq : gb.ppu.stat &&& STAT_HBLANK_CHECK_ENABLE ≠ 0)
    (hcount : (gb.ppu.count + (SIZE_T_MOD - 1)) % SIZE_T_MOD = 1) :
    (ppu_cycle gb).iflags &&& LCD_STAT_INTERRUPT_BIT = LCD_STAT_INTERRUPT_BIT ∧
    ppu_get_mode (ppu_cycle gb) = GRAPHICS_MODE_DATA_TRANSFER := by
  rw [ppu_get_mode] at hmode ⊢
  unfold ppu_cycle
  rw [if_neg hen, hcount]
  simp only [hmode, hirq]
  rw [if_pos (show (1:Nat) ≠ 0 by norm_num),
      if_pos (show True ∧ True ∧ gb.ppu.stat &&& STAT_HBLANK_CHECK_ENABLE ≠ 0 from
        ⟨trivial, trivial, hirq⟩)]
  exact ⟨lor_and_self _ _, hmode⟩

/-- Witness for C1 at the concrete machine `gbC1w` (counter 2). -/
theorem C1_early_hblank_stat_interrupt_witness :
    (ppu_cycle gbC1w).iflags &&& LCD_STAT_INTERRUPT_BIT = LCD_STAT_INTERRUPT_BIT ∧
    ppu_get_mode (ppu_cycle gbC1w) = GRAPHICS_MODE_DATA_TRANSFER :=
  C1_early_hblank_stat_interrupt gbC1w (by decide) (by decide) (by decide) (by decide)

/-- C2: entering VBLANK raises the vblank interrupt unconditionally, resets
the window-line counter to 0, and sets the LCD-status interrupt bit exactly
when the vblank-enable or OAM-search-enable status bit is set; entering
OAM_SEARCH sets the LCD-status interrupt bit exactly when the
OAM-search-enable bit is set; and the per-dot call whose decrement brings
the counter to 0 in HBLANK with incremented scanline ≥ 144 is precisely a
VBLANK entry followed by the coincidence check. -/
theorem C2_mode_entry_interrupts (gb : GameBoy)
    (h : gb.iflags &&& LCD_STAT_INTERRUPT_BIT = 0) :
    (ppu_vblank_enter gb).iflags &&& VBLANK_INTERRUPT_BIT = VBLANK_INTERRUPT_BIT ∧
    (ppu_vblank_enter gb).ppu.window_internal_line = 0 ∧
    ((ppu_vblank_enter gb).iflags &&& LCD_STAT_INTERRUPT_BIT ≠ 0 ↔
      (gb.ppu.stat &&& STAT_VBLANK_CHECK_ENABLE ≠ 0 ∨
       gb.ppu.stat &&& STAT_OAM_SEARCH_CHECK_ENABLE ≠ 0)) ∧
    ((ppu_oam_search_enter gb).iflags &&& LCD_STAT_INTERRUPT_BIT ≠ 0 ↔
      gb.ppu.stat &&& STAT_OAM_SEARCH_CHECK_ENABLE ≠ 0) ∧
    (gb.ppu.lcdc &&& LCDC_LCD_ENABLE_BIT ≠ 0 →
     (gb.ppu.count + (SIZE_T_MOD - 1)) % SIZE_T_MOD = 0 →
     gb.ppu.stat &&& STAT_MODE_BITS = GRAPHICS_MODE_HBLANK →
     ¬ (gb.ppu.ly + 1) % 256 < 144 →
     ppu_cycle gb = ppu_compare_ly_lyc (ppu_vblank_enter
       { gb with ppu := { gb.ppu with count := 0, ly := (gb.ppu.ly + 1) % 256 } })) := by
  have hb16 := land_two_pow_mode_set gb.ppu.stat 1 4 (by norm_num) (by norm_num) (by norm_num)
  have hb32 := land_two_pow_mode_set gb.ppu.stat 1 5 (by norm_num) (by norm_num) (by norm_num)
  have ho32 := land_two_pow_mode_set gb.ppu.stat 2 5 (by norm_num) (by norm_num) (by norm_num)
  norm_num at hb16 hb32 ho32
  rw [LCD_STAT_INTERRUPT_BIT] at h
  refine ⟨?_, ?_, ?_, ?_, ?_⟩
  · simp only [ppu_vblank_enter, GRAPHICS_MODE_VBLANK, STAT_VBLANK_CHECK_ENABLE,
      STAT_OAM_SEARCH_CHECK_ENABLE, VBLANK_INTERRUPT_BIT, LCD_STAT_INTERRUPT_BIT,
      hb16, hb32]
    split_ifs with hc
    · rw [land_lor_right, lor_and_self]
      decide
    · exact lor_and_self _ _
  · simp only [ppu_vblank_enter]
  · simp only [ppu_vblank_enter, GRAPHICS_MODE_VBLANK, STAT_VBLANK_CHECK_ENABLE,
      STAT_OAM_SEARCH_CHECK_ENABLE, VBLANK_INTERRUPT_BIT, LCD_STAT_INTERRUPT_BIT,
      hb16, hb32]
    split_ifs with hc
    · exact iff_of_true (by rw [lor_and_self]; norm_num) hc
    · refine iff_of_false ?_ hc
      rw [land_lor_right, h]
      norm_num
  · simp only [ppu_oam_search_enter, GRAPHICS_MODE_OAM_SEARCH,
      STAT_OAM_SEARCH_CHECK_ENABLE, LCD_STAT_INTERRUPT_BIT, ho32]
    split_ifs with hc
    · exact iff_of_true (by rw [lor_and_self]; norm_num) hc
    · refine iff_of_false ?_ hc
      rw [h]
      norm_num
  · intro hen hc0 hm0 hly
    unfold ppu_cycle
    rw [if_neg hen, hc0]
    simp only []
    rw [if_neg (show ¬((0:Nat) = 1 ∧ gb.ppu.stat &&& STAT_MODE_BITS = GRAPHICS_MODE_DATA_TRANSFER ∧
      gb.ppu.stat &&& STAT_HBLANK_CHECK_ENABLE ≠ 0) from fun hx => by norm_num at hx)]
    rw [if_neg (show ¬((0:Nat) ≠ 0) by norm_num)]
    unfold ppu_cycle_dispatch
    simp only [hm0]
    rw [if_pos trivial]
    unfold ppu_cycle_hblank_case
    simp only []
    rw [if_neg hly]

/-- Witness for C2 at the concrete machine `gbC2w` (HBLANK, counter 1,
scanline 143, vblank-check enable set). -/
theorem C2_mode_entry_interrupts_witness :
    (ppu_vblank_enter gbC2w).iflags &&& VBLANK_INTERRUPT_BIT = VBLANK_INTERRUPT_BIT ∧
    ppu_cycle gbC2w = ppu_compare_ly_lyc (ppu_vblank_enter
      { gbC2w with ppu := { gbC2w.ppu with count := 0, ly := (gbC2w.ppu.ly + 1) % 256 } }) :=
  ⟨(C2_mode_entry_interrupts gbC2w (by decide)).1,
   (C2_mode_entry_interrupts gbC2w (by decide)).2.2.2.2
     (by decide) (by decide) (by decide) (by decide)⟩

/-- C3: for every prior controller state, writing a control value with the
LCD-enable bit clear sets the scanline index to 0, sets the dot counter to
exactly 115, and clears the two mode bits of the status register while
leaving the remaining status-byte bits (2-7) unchanged. -/
theorem C3_lcd_disable_write (gb : GameBoy) (value : Nat)
    (hv : value &&& LCDC_LCD_ENABLE_BIT = 0) :
    (ppu_write_lcdc gb value).ppu.ly = 0 ∧
    (ppu_write_lcdc gb value).ppu.count = 115 ∧
    (ppu_write_lcdc gb value).ppu.stat &&& STAT_MODE_BITS = 0 ∧
    (∀ i, 2 ≤ i → i ≤ 7 →
      (ppu_write_lcdc gb value).ppu.stat.testBit i = gb.ppu.stat.testBit i) := by
  simp only [ppu_write_lcdc, if_pos hv]
  refine ⟨trivial, trivial, ?_, ?_⟩
  · rw [STAT_MODE_BITS, Nat.land_assoc]
    simp [show (252 &&& 3 : Nat) = 0 from by decide]
  · intro i h2 h7
    rw [Nat.testBit_land]
    interval_cases i <;> simp <;> exact fun _ => by decide

/-- Witness for C3: disabling the LCD from the power-on state. -/
theorem C3_lcd_disable_write_witness :
    (ppu_write_lcdc gb0 0).ppu.ly = 0 ∧ (ppu_write_lcdc gb0 0).ppu.count = 115 :=
  ⟨(C3_lcd_disable_write gb0 0 (by decide)).1,
   (C3_lcd_disable_write gb0 0 (by decide)).2.1⟩

/-- C7: an object-memory write during OAM_SEARCH or DATA_TRANSFER leaves the
whole controller state unchanged with no error; during HBLANK or VBLANK the
write stores the byte; object-memory reads always return the stored byte. -/
theorem C7_oam_write_gating (gb : GameBoy) (address value : Nat) :
    ((ppu_get_mode gb = GRAPHICS_MODE_OAM_SEARCH ∨
      ppu_get_mode gb = GRAPHICS_MODE_DATA_TRANSFER) →
      ppu_write_oam gb address value = gb) ∧
    ((ppu_get_mode gb = GRAPHICS_MODE_HBLANK ∨ ppu_get_mode gb = GRAPHICS_MODE_VBLANK) →
      (ppu_write_oam gb address value).ppu.oam = upd gb.ppu.oam address value) ∧
    ppu_read_oam gb address = gb.ppu.oam address := by
  refine ⟨?_, ?_, rfl⟩
  · intro hm
    rw [ppu_get_mode] at hm
    rcases hm with hm | hm <;>
      simp [ppu_write_oam, hm, GRAPHICS_MODE_OAM_SEARCH, GRAPHICS_MODE_DATA_TRANSFER]
  · intro hm
    rw [ppu_get_mode] at hm
    rcases hm with hm | hm <;>
      simp [ppu_write_oam, hm, GRAPHICS_MODE_HBLANK, GRAPHICS_MODE_VBLANK,
        GRAPHICS_MODE_OAM_SEARCH, GRAPHICS_MODE_DATA_TRANSFER]

/-- Witness for C7: a write in DATA_TRANSFER (machine `gbC1w`) is dropped;
the same write in HBLANK (machine `gb0`) is stored. -/
theorem C7_oam_write_gating_witness :
    ppu_write_oam gbC1w 5 7 = gbC1w ∧
    (ppu_write_oam gb0 5 7).ppu.oam = upd gb0.ppu.oam 5 7 :=
  ⟨(C7_oam_write_gating gbC1w 5 7).1 (Or.inr (by decide)),
   (C7_oam_write_gating gb0 5 7).2.1 (Or.inl (by decide))⟩

/-- C6 counterexample evidence: the status-register write mask `0x7C`
includes bit 2, the coincidence flag, so a bus write of
`STAT_LY_LYC_COMPARISON_SIGNAL` flips that bit from 0 to 1. -/
theorem C6_stat_write_sets_coincidence_flag :
    gb0.ppu.stat.testBit 2 = false ∧
    (ppu_write_stat gb0 STAT_LY_LYC_COMPARISON_SIGNAL).ppu.stat.testBit 2 = true := by
  decide

/-- C8 counterexample: initialization primes the dot counter with 80, not
with the OAM_SEARCH mode length 21. -/
theorem C8_init_count_not_oam_length :
    ( ppu_initialize ppu0 true).count = 80 ∧
    ( ppu_initialize ppu0 true).count ≠ PPU_OAM_SEARCH_LENGTH := by decide

/-- C8 (amended): immediately after controller initialization the control
register is 0x91, the status register is 0 (so the mode bits read 0), and
the dot counter is 80. -/
theorem C8_power_on_state (p : PPU) (b : Bool) :
    ( ppu_initialize p b).lcdc = 0x91 ∧ ( ppu_initialize p b).stat = 0 ∧
    ( ppu_initialize p b).count = 80 :=
  ⟨rfl, rfl, rfl⟩

set_option maxRecDepth 40000 in
/-- C10 failing-input evidence: each export loop performs the write at the
requested maximum index before checking it, so with maximum count 0 the
display export writes 1 element yet returns 0, and with maximum count 7 the
background export writes 8 elements yet returns 7. -/
theorem C10_export_overruns_requested_count :
    (ppu_get_display_data gb0 0).1.length = 1 ∧
    (ppu_get_display_data gb0 0).2 = 0 ∧
    (ppu_get_background_data gb0 7).1.length = 8 ∧
    (ppu_get_background_data gb0 7).2 = 7 := by decide

set_option maxRecDepth 200000 in
/-- C4 failing-input evidence: with sprites 0 and 1 at the same X (18) on
the scanline and sprite colors 1 and 2 respectively, the selection sort's
swap reverses the tie, so sprite 1 — the later object-memory index — is
painted last and its color 2 is what remains at column 10, not sprite 0's
color 1. -/
theorem C4_sprite_tie_memory_order_violated :
    (ppu_draw_line gbC4).ppu.display_buffer 10 = 2 ∧
    palette_map gbC4.ppu.obp0 (gbC4.ppu.tile_buffer 1 0 0) = 1 ∧
    palette_map gbC4.ppu.obp0 (gbC4.ppu.tile_buffer 2 0 0) = 2 := by decide

/-- Bridge between the mask test of the tile-cache recompute and `testBit`:
the 2-bit color code of a pixel is low-plane bit + 2 × high-plane bit. -/
theorem color_code_testBit (b1 b2 mask j : Nat) (hm : mask = 2 ^ j) :
    (if b1 &&& mask = 0 then (if b2 &&& mask = 0 then 0 else 2)
     else (if b2 &&& mask = 0 then 1 else 3)) =
    (if b1.testBit j = true then 1 else 0) + (if b2.testBit j = true then 2 else 0) := by
  subst hm
  rw [land_pow2, land_pow2]
  by_cases h1 : b1.testBit j <;> by_cases h2 : b2.testBit j <;>
    simp [h1, h2, (Nat.pos_pow_of_pos j (show 0 < 2 by norm_num)).ne.symm]

/-- The recomputed tile row holds, at each of its 8 pixels, the color index
low-plane bit × 1 + high-plane bit × 2, most-significant bit first. -/
theorem tile_row_recompute_at (tb : Nat → Nat → Nat → Nat) (tile row b1 b2 pixel : Nat)
    (hp : pixel < 8) :
    tile_row_recompute tb tile row b1 b2 tile row pixel =
      (if b1.testBit (7 - pixel) then 1 else 0) +
        2 * (if b2.testBit (7 - pixel) then 1 else 0) := by
  unfold tile_row_recompute
  rw [show List.range PPU_PIXELS_PER_TILE_ROW = [0,1,2,3,4,5,6,7] from by decide]
  simp only [List.foldl]
  interval_cases pixel <;>
    simp only [upd3] <;>
    norm_num <;>
    first
      | exact color_code_testBit b1 b2 _ _ (by norm_num [Nat.shiftLeft_eq])
      | (by_cases h1 : b1 % 2 = 1 <;> by_cases h2 : b2 % 2 = 1 <;> simp [h1, h2])

/-- C5: a video-memory write below the tile-data boundary recomputes the 8
cache entries of the affected tile row from the even/odd byte pair
containing the address, as low-plane bit × 1 + high-plane bit × 2 with the
most-significant bit first; writing the byte pairs 0xFF,0x00 / 0x00,0xFF /
0xFF,0xFF into tile 0's first row yields rows of all 1s / 2s / 3s. -/
theorem C5_tile_cache_recompute (gb : GameBoy) (address value pixel : Nat)
    (ha : address < 0x1800) (hp : pixel < 8) :
    ((ppu_write_vram gb address value).ppu.tile_buffer
        (address / PPU_BYTES_PER_TILE)
        ((address % PPU_BYTES_PER_TILE) / PPU_BYTES_PER_ROW) pixel =
      (if (upd gb.ppu.vram address value (address &&& 0xFFFE)).testBit (7 - pixel)
       then 1 else 0) +
        2 * (if (upd gb.ppu.vram address value ((address &&& 0xFFFE) + 1)).testBit (7 - pixel)
             then 1 else 0)) ∧
    (∀ p, p < 8 → (ppu_write_vram (ppu_write_vram gb0 0 0xFF) 1 0x00).ppu.tile_buffer 0 0 p = 1) ∧
    (∀ p, p < 8 → (ppu_write_vram (ppu_write_vram gb0 0 0x00) 1 0xFF).ppu.tile_buffer 0 0 p = 2) ∧
    (∀ p, p < 8 → (ppu_write_vram (ppu_write_vram gb0 0 0xFF) 1 0xFF).ppu.tile_buffer 0 0 p = 3) := by
  refine ⟨?_, by decide, by decide, by decide⟩
  simp only [ppu_write_vram, if_pos ha]
  exact tile_row_recompute_at _ _ _ _ _ pixel hp

/-- Witness for C5: writing 0xFF at address 0 makes cache entry (0,0,0)
read 1 (low plane set, high plane clear at the leading bit). -/
theorem C5_tile_cache_recompute_witness :
    (ppu_write_vram gb0 0 0xFF).ppu.tile_buffer 0 0 0 =
      (if (upd gb0.ppu.vram 0 0xFF (0 &&& 0xFFFE)).testBit (7 - 0) then 1 else 0) +
        2 * (if (upd gb0.ppu.vram 0 0xFF ((0 &&& 0xFFFE) + 1)).testBit (7 - 0) then 1 else 0) :=
  (C5_tile_cache_recompute gb0 0 0xFF 0 (by decide) (by decide)).1

/-- Every write an export loop performs is the pair `(idx t, val t)` of some
traversal element `t`. -/
theorem export_loop_writes {ι : Type} (idx val : ι → Nat) (length full : Nat) :
    ∀ (l : List ι) (acc : List (Nat × Nat)) (w : Nat × Nat),
      w ∈ (export_loop idx val length full l acc).1 →
      w ∈ acc ∨ ∃ t, t ∈ l ∧ w = (idx t, val t) := by
  intro l
  induction l with
  | nil =>
    intro acc w hw
    exact Or.inl hw
  | cons t rest ih =>
    intro acc w hw
    rw [export_loop] at hw
    by_cases h : idx t = length
    · rw [if_pos h] at hw
      rcases List.mem_append.mp hw with h1 | h1
      · exact Or.inl h1
      · exact Or.inr ⟨t, List.mem_cons_self t rest, by simpa using h1⟩
    · rw [if_neg h] at hw
      rcases ih _ w hw with h1 | h1
      · rcases List.mem_append.mp h1 with h2 | h2
        · exact Or.inl h2
        · exact Or.inr ⟨t, List.mem_cons_self t rest, by simpa using h2⟩
      · rcases h1 with ⟨u, hu, he⟩
        exact Or.inr ⟨u, List.mem_cons_of_mem t hu, he⟩

set_option maxRecDepth 40000 in
/-- C9 counterexample: with tile 0's first row cached as color index 3, the
background-map export writes the raw index 3 — a value the 5-entry shade
lookup can never produce — so not every exported element is a shade. -/
theorem C9_bg_export_writes_raw_index :
    (ppu_get_background_data gbC9 0).1 = [(0, 3)] ∧ (∀ c, get_pixel_color c ≠ 3) := by
  refine ⟨by decide, ?_⟩
  intro c
  unfold get_pixel_color
  split_ifs <;> decide

/-- C9 (amended): the display export writes only values of the fixed
5-entry shade lookup, and with the LCD-enable bit clear it writes the
reserved LCD-off shade for every pixel; the background-map and tile-set
exports instead write the cached color indices directly (their write
values are `bg_export_val` / `ts_export_val`, raw tile-cache reads that
bypass `get_pixel_color`). -/
theorem C9_export_value_mapping (gb : GameBoy) (length : Nat) :
    (∀ w, w ∈ (ppu_get_display_data gb length).1 → ∃ c, w.2 = get_pixel_color c) ∧
    (gb.ppu.lcdc &&& LCDC_LCD_ENABLE_BIT = 0 →
      ∀ w, w ∈ (ppu_get_display_data gb length).1 →
        w.2 = get_pixel_color PPU_LCD_COLOR_CODE) ∧
    (∀ w, w ∈ (ppu_get_background_data gb length).1 →
      ∃ t, w = (bg_idx t, bg_export_val gb t)) ∧
    (∀ w, w ∈ (ppu_get_tileset_data gb length).1 →
      ∃ t, w = (ts_idx t, ts_export_val gb t)) := by
  refine ⟨?_, ?_, ?_, ?_⟩
  · intro w hw
    rcases export_loop_writes _ _ _ _ _ _ w hw with h | ⟨t, _, he⟩
    · simp at h
    · rw [he]
      unfold display_val
      by_cases hl : gb.ppu.lcdc &&& LCDC_LCD_ENABLE_BIT ≠ 0
      · exact ⟨gb.ppu.display_buffer t, by rw [if_pos hl]⟩
      · exact ⟨PPU_LCD_COLOR_CODE, by rw [if_neg hl]⟩
  · intro h0 w hw
    rcases export_loop_writes _ _ _ _ _ _ w hw with h | ⟨t, _, he⟩
    · simp at h
    · rw [he]
      unfold display_val
      rw [if_neg (by simp [h0])]
  · intro w hw
    rcases export_loop_writes _ _ _ _ _ _ w hw with h | ⟨t, _, he⟩
    · simp at h
    · exact ⟨t, he⟩
  · intro w hw
    rcases export_loop_writes _ _ _ _ _ _ w hw with h | ⟨t, _, he⟩
    · simp at h
    · exact ⟨t, he⟩

/-- Witness for C9 at the LCD-off machine `gbOff`: the first display-export
write is the blank shade. -/
theorem C9_export_value_mapping_witness :
    ((0:Nat), (0:Nat)) ∈ (ppu_get_display_data gbOff 0).1 ∧
    ((0:Nat), (0:Nat)).2 = get_pixel_color PPU_LCD_COLOR_CODE :=
  ⟨by decide, (C9_export_value_mapping gbOff 0).2.1 (by decide) (0, 0) (by decide)⟩
